import Mathlib

/-!
Verification of the deal-finder financial calculation core
(`deal_finder/tools.py`): the mortgage calculator, the cash-flow analyzer
and the exponential-backoff retry wrapper.

Numbers are modelled as exact rationals (`ℚ`); Python dictionaries as
association lists of string keys and `JVal` values; a raised exception as
the `Except.error` carrying its stringified message.
-/

set_option autoImplicit false

namespace DealFinder

/-- A value stored in one of the result dictionaries: a float, an int,
a string, or a nested dictionary. -/
inductive JVal where
  | num : ℚ → JVal
  | int : ℤ → JVal
  | str : String → JVal
  | obj : List (String × JVal) → JVal

/-- A Python dict with string keys, as an association list (insertion order). -/
abbrev Dict := List (String × JVal)

/-- Key lookup in a dict (`d[k]` / `k in d`). -/
def getField (l : Dict) (k : String) : Option JVal :=
  (l.find? (fun p => p.1 == k)).map Prod.snd

/-- The keys of a dict, in insertion order. -/
def keysOf (l : Dict) : List String := l.map Prod.fst

/-- Python `round` to an integer: nearest integer, ties to even
(banker's rounding), idealized to exact rationals. -/
def roundHalfEven (x : ℚ) : ℤ :=
  let n := ⌊x⌋
  let f := x - n
  if f < 1/2 then n
  else if 1/2 < f then n + 1
  else if n % 2 = 0 then n else n + 1

/-- Python `round(x, ndigits)` on exact rationals. -/
def pyRound (x : ℚ) (ndigits : ℕ) : ℚ :=
  (roundHalfEven (x * 10 ^ ndigits) : ℚ) / 10 ^ ndigits

namespace Mortgage

/- Local variables of `calculate_mortgage` (tools.py lines 101-124),
as named functions of the inputs. -/

/-- `down_payment = price * (down_payment_pct / 100)` (line 101). -/
def down_payment (price down_payment_pct : ℚ) : ℚ :=
  price * (down_payment_pct / 100)

/-- `loan_amount = price - down_payment` (line 102). -/
def loan_amount (price down_payment_pct : ℚ) : ℚ :=
  price - down_payment price down_payment_pct

/-- `monthly_rate = (interest_rate / 100) / 12` (line 103). -/
def monthly_rate (interest_rate : ℚ) : ℚ :=
  (interest_rate / 100) / 12

/-- `num_payments = term_years * 12` (line 104). -/
def num_payments (term_years : ℤ) : ℤ := term_years * 12

/-- `monthly_payment = loan_amount * ((monthly_rate * (1 + monthly_rate) ** num_payments) / ((1 + monthly_rate) ** num_payments - 1))` (lines 118-121). -/
def monthly_payment (price down_payment_pct interest_rate : ℚ) (term_years : ℤ) : ℚ :=
  loan_amount price down_payment_pct *
    ((monthly_rate interest_rate *
        (1 + monthly_rate interest_rate) ^ (num_payments term_years).toNat)
      / ((1 + monthly_rate interest_rate) ^ (num_payments term_years).toNat - 1))

/-- `total_paid = monthly_payment * num_payments` (line 123). -/
def total_paid (price down_payment_pct interest_rate : ℚ) (term_years : ℤ) : ℚ :=
  monthly_payment price down_payment_pct interest_rate term_years *
    (num_payments term_years : ℚ)

/-- `total_interest = total_paid - loan_amount` (line 124). -/
def total_interest (price down_payment_pct interest_rate : ℚ) (term_years : ℤ) : ℚ :=
  total_paid price down_payment_pct interest_rate term_years -
    loan_amount price down_payment_pct

end Mortgage

open Mortgage in
/-- The early-return dictionary of tools.py lines 107-115, built when
`loan_amount == 0` (note: it has no `interest_rate` and no `term_years`
entry). -/
def mortgageZeroDict (price down_payment_pct : ℚ) : Dict :=
  [("price", .num (pyRound price 2)),
   ("down_payment_pct", .num down_payment_pct),
   ("down_payment_amount", .num (pyRound (down_payment price down_payment_pct) 2)),
   ("loan_amount", .num 0),
   ("monthly_payment", .num 0),
   ("total_interest", .num 0),
   ("total_cost", .num (pyRound price 2))]

open Mortgage in
/-- The main success dictionary of tools.py lines 126-136. -/
def mortgageMainDict (price down_payment_pct interest_rate : ℚ)
    (term_years : ℤ) : Dict :=
  [("price", .num (pyRound price 2)),
   ("down_payment_pct", .num down_payment_pct),
   ("down_payment_amount", .num (pyRound (down_payment price down_payment_pct) 2)),
   ("loan_amount", .num (pyRound (loan_amount price down_payment_pct) 2)),
   ("interest_rate", .num interest_rate),
   ("term_years", .int term_years),
   ("monthly_payment", .num (pyRound (monthly_payment price down_payment_pct interest_rate term_years) 2)),
   ("total_interest", .num (pyRound (total_interest price down_payment_pct interest_rate term_years) 2)),
   ("total_cost", .num (pyRound (down_payment price down_payment_pct + total_paid price down_payment_pct interest_rate term_years) 2))]

open Mortgage in
/-- `calculate_mortgage` (tools.py lines 75-136): four short-circuiting
validations, a zero-loan early return, otherwise the amortization formula. -/
def calculate_mortgage (price down_payment_pct interest_rate : ℚ)
    (term_years : ℤ) : Dict :=
  if price ≤ 0 then
    [("error", .str "Price must be positive.")]
  else if ¬(0 ≤ down_payment_pct ∧ down_payment_pct ≤ 100) then
    [("error", .str "Down payment percentage must be between 0 and 100.")]
  else if interest_rate ≤ 0 then
    [("error", .str "Interest rate must be positive.")]
  else if term_years ≤ 0 then
    [("error", .str "Loan term must be positive.")]
  else if loan_amount price down_payment_pct = 0 then
    mortgageZeroDict price down_payment_pct
  else
    mortgageMainDict price down_payment_pct interest_rate term_years

namespace Cashflow

/- Local variables of `calculate_cashflow` (tools.py lines 168-198),
as named functions of the inputs. -/

/-- `vacancy_reserve = monthly_rent * (vacancy_rate_pct / 100)` (line 168). -/
def vacancy_reserve (monthly_rent vacancy_rate_pct : ℚ) : ℚ :=
  monthly_rent * (vacancy_rate_pct / 100)

/-- `maintenance_reserve = monthly_rent * (maintenance_pct / 100)` (line 169). -/
def maintenance_reserve (monthly_rent maintenance_pct : ℚ) : ℚ :=
  monthly_rent * (maintenance_pct / 100)

/-- `total_monthly_expenses = mortgage_payment + monthly_taxes + monthly_insurance + vacancy_reserve + maintenance_reserve` (lines 171-177). -/
def total_monthly_expenses (monthly_rent mortgage_payment monthly_taxes
    monthly_insurance vacancy_rate_pct maintenance_pct : ℚ) : ℚ :=
  mortgage_payment + monthly_taxes + monthly_insurance
    + vacancy_reserve monthly_rent vacancy_rate_pct
    + maintenance_reserve monthly_rent maintenance_pct

/-- `monthly_cash_flow = monthly_rent - total_monthly_expenses` (line 179). -/
def monthly_cash_flow (monthly_rent mortgage_payment monthly_taxes
    monthly_insurance vacancy_rate_pct maintenance_pct : ℚ) : ℚ :=
  monthly_rent - total_monthly_expenses monthly_rent mortgage_payment
    monthly_taxes monthly_insurance vacancy_rate_pct maintenance_pct

/-- `annual_cash_flow = monthly_cash_flow * 12` (line 180). -/
def annual_cash_flow (monthly_rent mortgage_payment monthly_taxes
    monthly_insurance vacancy_rate_pct maintenance_pct : ℚ) : ℚ :=
  monthly_cash_flow monthly_rent mortgage_payment monthly_taxes
    monthly_insurance vacancy_rate_pct maintenance_pct * 12

/-- `annual_noi = (monthly_rent - vacancy_reserve - maintenance_reserve - monthly_taxes - monthly_insurance) * 12` (lines 183-186). -/
def annual_noi (monthly_rent monthly_taxes monthly_insurance
    vacancy_rate_pct maintenance_pct : ℚ) : ℚ :=
  (monthly_rent - vacancy_reserve monthly_rent vacancy_rate_pct
    - maintenance_reserve monthly_rent maintenance_pct
    - monthly_taxes - monthly_insurance) * 12

/-- `cap_rate = (annual_noi / property_price * 100) if property_price > 0 else 0.0` (line 189). -/
def cap_rate (monthly_rent monthly_taxes monthly_insurance
    vacancy_rate_pct maintenance_pct property_price : ℚ) : ℚ :=
  if property_price > 0 then
    annual_noi monthly_rent monthly_taxes monthly_insurance
      vacancy_rate_pct maintenance_pct / property_price * 100
  else 0

/-- `cash_on_cash = (annual_cash_flow / total_cash_invested * 100) if total_cash_invested > 0 else 0.0` (lines 192-195). -/
def cash_on_cash (monthly_rent mortgage_payment monthly_taxes
    monthly_insurance vacancy_rate_pct maintenance_pct total_cash_invested : ℚ) : ℚ :=
  if total_cash_invested > 0 then
    annual_cash_flow monthly_rent mortgage_payment monthly_taxes
      monthly_insurance vacancy_rate_pct maintenance_pct / total_cash_invested * 100
  else 0

/-- `rent_to_price = (monthly_rent / property_price) if property_price > 0 else 0.0` (line 198). -/
def rent_to_price (monthly_rent property_price : ℚ) : ℚ :=
  if property_price > 0 then monthly_rent / property_price else 0

end Cashflow

open Cashflow in
/-- The nested `expenses` dictionary of tools.py lines 202-209. -/
def cashflowExpensesDict (monthly_rent mortgage_payment monthly_taxes
    monthly_insurance vacancy_rate_pct maintenance_pct : ℚ) : Dict :=
  [("mortgage", .num (pyRound mortgage_payment 2)),
   ("taxes", .num (pyRound monthly_taxes 2)),
   ("insurance", .num (pyRound monthly_insurance 2)),
   ("vacancy_reserve", .num (pyRound (vacancy_reserve monthly_rent vacancy_rate_pct) 2)),
   ("maintenance_reserve", .num (pyRound (maintenance_reserve monthly_rent maintenance_pct) 2)),
   ("total_monthly", .num (pyRound (total_monthly_expenses monthly_rent mortgage_payment monthly_taxes monthly_insurance vacancy_rate_pct maintenance_pct) 2))]

open Cashflow in
/-- The success dictionary of tools.py lines 200-216, with the nested
`expenses` dictionary. -/
def cashflowOkDict (monthly_rent mortgage_payment monthly_taxes
    monthly_insurance vacancy_rate_pct maintenance_pct
    property_price total_cash_invested : ℚ) : Dict :=
  [("monthly_rent", .num (pyRound monthly_rent 2)),
     ("expenses", .obj (cashflowExpensesDict monthly_rent mortgage_payment
       monthly_taxes monthly_insurance vacancy_rate_pct maintenance_pct)),
     ("monthly_cash_flow", .num (pyRound (monthly_cash_flow monthly_rent mortgage_payment monthly_taxes monthly_insurance vacancy_rate_pct maintenance_pct) 2)),
     ("annual_cash_flow", .num (pyRound (annual_cash_flow monthly_rent mortgage_payment monthly_taxes monthly_insurance vacancy_rate_pct maintenance_pct) 2)),
     ("annual_noi", .num (pyRound (annual_noi monthly_rent monthly_taxes monthly_insurance vacancy_rate_pct maintenance_pct) 2)),
     ("cap_rate_pct", .num (pyRound (cap_rate monthly_rent monthly_taxes monthly_insurance vacancy_rate_pct maintenance_pct property_price) 2)),
     ("cash_on_cash_return_pct", .num (pyRound (cash_on_cash monthly_rent mortgage_payment monthly_taxes monthly_insurance vacancy_rate_pct maintenance_pct total_cash_invested) 2)),
     ("rent_to_price_ratio", .num (pyRound (rent_to_price monthly_rent property_price) 4))]

/-- `calculate_cashflow` (tools.py lines 140-216): one validation, then the
success dictionary. -/
def calculate_cashflow (monthly_rent mortgage_payment monthly_taxes
    monthly_insurance vacancy_rate_pct maintenance_pct
    property_price total_cash_invested : ℚ) : Dict :=
  if monthly_rent < 0 ∨ mortgage_payment < 0 then
    [("error", .str "Rent and mortgage must be non-negative.")]
  else
    cashflowOkDict monthly_rent mortgage_payment monthly_taxes
      monthly_insurance vacancy_rate_pct maintenance_pct
      property_price total_cash_invested

/-- Substring containment: Python `sub in s`. -/
def strContainsSub (s sub : String) : Bool := decide (sub.data <:+: s.data)

/-- Retryability test of tools.py lines 52-53:
`"resource_exhausted" in str(e).lower() or "rate limit" in str(e).lower()`. -/
def errRetryable (e : String) : Bool :=
  strContainsSub e.toLower "resource_exhausted" || strContainsSub e.toLower "rate limit"

/-- Observable outcome of one wrapped call: the returned value or the
exception that escaped, the number of invocations of the wrapped function,
and the sequence of `time.sleep` delays performed, in order. -/
structure RetryResult (α : Type) where
  res : Except String α
  calls : ℕ
  delays : List ℚ

/-- The `for attempt in range(max_retries + 1)` loop of tools.py lines 47-69,
from iteration `attempt` on, with `fuel` iterations remaining
(`fuel = max_retries + 1 - attempt` at every reachable call).
The wrapped function is modelled as `f : ℕ → Except String α`, giving for
each 0-indexed attempt its outcome, an exception being its stringified
message.  When the final iteration fails with a retryable error the loop
ends and line 69 re-raises that last exception, hence `.error e` in the
`attempt = max_retries` branch; the fuel-0 case is unreachable. -/
def retryAux {α : Type} (f : ℕ → Except String α) (max_retries : ℕ)
    (base_delay : ℚ) : ℕ → ℕ → RetryResult α
  | _, 0 => ⟨.error "", 0, []⟩
  | attempt, fuel + 1 =>
    match f attempt with
    | .ok v => ⟨.ok v, 1, []⟩
    | .error e =>
      if errRetryable e then
        if attempt < max_retries then
          let rest := retryAux f max_retries base_delay (attempt + 1) fuel
          ⟨rest.res, rest.calls + 1, base_delay * 2 ^ attempt :: rest.delays⟩
        else ⟨.error e, 1, []⟩
      else ⟨.error e, 1, []⟩

/-- `retry_on_rate_limit(max_retries, base_delay)` applied to a wrapped
function (tools.py lines 30-71): run the loop from attempt 0 with
`max_retries + 1` iterations available. -/
def retry_on_rate_limit {α : Type} (max_retries : ℕ) (base_delay : ℚ)
    (f : ℕ → Except String α) : RetryResult α :=
  retryAux f max_retries base_delay 0 (max_retries + 1)

/-- The exported `calculate_mortgage`: the pure body wrapped by
`@retry_on_rate_limit(max_retries=5, base_delay=2.0)` (tools.py line 74).
The body is a total function of its arguments, so every attempt returns
its value. -/
def calculate_mortgage_tool (price down_payment_pct interest_rate : ℚ)
    (term_years : ℤ) : RetryResult Dict :=
  retry_on_rate_limit 5 2
    (fun _ => .ok (calculate_mortgage price down_payment_pct interest_rate term_years))

/-- The exported `calculate_cashflow`: the pure body wrapped by
`@retry_on_rate_limit(max_retries=5, base_delay=2.0)` (tools.py line 139). -/
def calculate_cashflow_tool (monthly_rent mortgage_payment monthly_taxes
    monthly_insurance vacancy_rate_pct maintenance_pct
    property_price total_cash_invested : ℚ) : RetryResult Dict :=
  retry_on_rate_limit 5 2
    (fun _ => .ok (calculate_cashflow monthly_rent mortgage_payment monthly_taxes
      monthly_insurance vacancy_rate_pct maintenance_pct
      property_price total_cash_invested))

/-! Branch-reduction lemmas: which dictionary each function returns on each
region of its input space. -/

/-- On inputs passing all four validations with a nonzero loan,
`calculate_mortgage` returns the main success dictionary. -/
theorem calculate_mortgage_eq_main (price down_payment_pct interest_rate : ℚ)
    (term_years : ℤ) (hp : 0 < price) (h0 : 0 ≤ down_payment_pct)
    (h100 : down_payment_pct ≤ 100) (hr : 0 < interest_rate)
    (ht : 0 < term_years) (hl : Mortgage.loan_amount price down_payment_pct ≠ 0) :
    calculate_mortgage price down_payment_pct interest_rate term_years
      = mortgageMainDict price down_payment_pct interest_rate term_years := by
  unfold calculate_mortgage
  rw [if_neg (not_le.mpr hp), if_neg (not_not_intro ⟨h0, h100⟩),
    if_neg (not_le.mpr hr), if_neg (not_le.mpr ht), if_neg hl]

/-- On inputs passing all four validations with a zero loan,
`calculate_mortgage` returns the early-return dictionary. -/
theorem calculate_mortgage_eq_zero (price down_payment_pct interest_rate : ℚ)
    (term_years : ℤ) (hp : 0 < price) (h0 : 0 ≤ down_payment_pct)
    (h100 : down_payment_pct ≤ 100) (hr : 0 < interest_rate)
    (ht : 0 < term_years) (hl : Mortgage.loan_amount price down_payment_pct = 0) :
    calculate_mortgage price down_payment_pct interest_rate term_years
      = mortgageZeroDict price down_payment_pct := by
  unfold calculate_mortgage
  rw [if_neg (not_le.mpr hp), if_neg (not_not_intro ⟨h0, h100⟩),
    if_neg (not_le.mpr hr), if_neg (not_le.mpr ht), if_pos hl]

/-- On inputs passing its validation, `calculate_cashflow` returns the
success dictionary. -/
theorem calculate_cashflow_eq_ok (monthly_rent mortgage_payment monthly_taxes
    monthly_insurance vacancy_rate_pct maintenance_pct
    property_price total_cash_invested : ℚ)
    (hrent : 0 ≤ monthly_rent) (hmort : 0 ≤ mortgage_payment) :
    calculate_cashflow monthly_rent mortgage_payment monthly_taxes
        monthly_insurance vacancy_rate_pct maintenance_pct
        property_price total_cash_invested
      = cashflowOkDict monthly_rent mortgage_payment monthly_taxes
          monthly_insurance vacancy_rate_pct maintenance_pct
          property_price total_cash_invested := by
  unfold calculate_cashflow
  rw [if_neg]
  push_neg
  exact ⟨hrent, hmort⟩

/-- Rounding zero at any number of digits gives zero. -/
theorem pyRound_zero (n : ℕ) : pyRound 0 n = 0 := by
  norm_num [pyRound, roundHalfEven]

/-- Claim C6: `calculate_mortgage` checks its four validations in order —
price, then down-payment percentage, then interest rate, then term — and on
the first failing check returns exactly the corresponding error dictionary;
`calculate_cashflow` returns its error dictionary exactly when
`monthly_rent < 0` or `mortgage_payment < 0`, and range-validates no other
input (all other arguments are arbitrary here). -/
theorem validation_order_and_messages
    (price down_payment_pct interest_rate : ℚ) (term_years : ℤ)
    (monthly_rent mortgage_payment monthly_taxes monthly_insurance
      vacancy_rate_pct maintenance_pct property_price total_cash_invested : ℚ) :
    (price ≤ 0 →
      calculate_mortgage price down_payment_pct interest_rate term_years
        = [("error", .str "Price must be positive.")]) ∧
    (0 < price → ¬(0 ≤ down_payment_pct ∧ down_payment_pct ≤ 100) →
      calculate_mortgage price down_payment_pct interest_rate term_years
        = [("error", .str "Down payment percentage must be between 0 and 100.")]) ∧
    (0 < price → 0 ≤ down_payment_pct → down_payment_pct ≤ 100 →
      interest_rate ≤ 0 →
      calculate_mortgage price down_payment_pct interest_rate term_years
        = [("error", .str "Interest rate must be positive.")]) ∧
    (0 < price → 0 ≤ down_payment_pct → down_payment_pct ≤ 100 →
      0 < interest_rate → term_years ≤ 0 →
      calculate_mortgage price down_payment_pct interest_rate term_years
        = [("error", .str "Loan term must be positive.")]) ∧
    ((monthly_rent < 0 ∨ mortgage_payment < 0) →
      calculate_cashflow monthly_rent mortgage_payment monthly_taxes
          monthly_insurance vacancy_rate_pct maintenance_pct
          property_price total_cash_invested
        = [("error", .str "Rent and mortgage must be non-negative.")]) ∧
    (0 ≤ monthly_rent → 0 ≤ mortgage_payment →
      getField (calculate_cashflow monthly_rent mortgage_payment monthly_taxes
          monthly_insurance vacancy_rate_pct maintenance_pct
          property_price total_cash_invested) "error" = none) := by
  refine ⟨?_, ?_, ?_, ?_, ?_, ?_⟩
  · intro h
    unfold calculate_mortgage
    rw [if_pos h]
  · intro hp h
    unfold calculate_mortgage
    rw [if_neg (not_le.mpr hp), if_pos h]
  · intro hp h0 h100 hr
    unfold calculate_mortgage
    rw [if_neg (not_le.mpr hp), if_neg (not_not_intro ⟨h0, h100⟩), if_pos hr]
  · intro hp h0 h100 hr ht
    unfold calculate_mortgage
    rw [if_neg (not_le.mpr hp), if_neg (not_not_intro ⟨h0, h100⟩),
      if_neg (not_le.mpr hr), if_pos ht]
  · intro h
    unfold calculate_cashflow
    rw [if_pos h]
  · intro h1 h2
    rw [calculate_cashflow_eq_ok _ _ _ _ _ _ _ _ h1 h2]
    with_unfolding_all rfl

/-- Witness for C6: a negative price yields exactly the price error
dictionary, and a valid cash-flow input yields a record with no error
field. -/
theorem validation_order_and_messages_witness :
    ((-5 : ℚ) ≤ 0 ∧
      calculate_mortgage (-5) 50 12 30
        = [("error", .str "Price must be positive.")]) ∧
    ((0 : ℚ) ≤ 1000 ∧ (0 : ℚ) ≤ 500 ∧
      getField (calculate_cashflow 1000 500 100 50 5 5 0 0) "error" = none) :=
  ⟨⟨by norm_num,
    (validation_order_and_messages (-5) 50 12 30 1000 500 100 50 5 5 0 0).1
      (by norm_num)⟩,
   ⟨by norm_num, by norm_num,
    (validation_order_and_messages (-5) 50 12 30 1000 500 100 50 5 5 0 0).2.2.2.2.2
      (by norm_num) (by norm_num)⟩⟩

/-- Claim C8: on valid cash-flow inputs, `property_price = 0` forces the
`cap_rate_pct` and `rent_to_price_ratio` outputs to the sentinel `0.0`
regardless of the other inputs, and `total_cash_invested = 0` forces
`cash_on_cash_return_pct` to `0.0`. -/
theorem cashflow_sentinels (monthly_rent mortgage_payment monthly_taxes
    monthly_insurance vacancy_rate_pct maintenance_pct
    property_price total_cash_invested : ℚ)
    (hrent : 0 ≤ monthly_rent) (hmort : 0 ≤ mortgage_payment) :
    (property_price = 0 →
      getField (calculate_cashflow monthly_rent mortgage_payment monthly_taxes
          monthly_insurance vacancy_rate_pct maintenance_pct
          property_price total_cash_invested) "cap_rate_pct" = some (.num 0) ∧
      getField (calculate_cashflow monthly_rent mortgage_payment monthly_taxes
          monthly_insurance vacancy_rate_pct maintenance_pct
          property_price total_cash_invested) "rent_to_price_ratio"
        = some (.num 0)) ∧
    (total_cash_invested = 0 →
      getField (calculate_cashflow monthly_rent mortgage_payment monthly_taxes
          monthly_insurance vacancy_rate_pct maintenance_pct
          property_price total_cash_invested) "cash_on_cash_return_pct"
        = some (.num 0)) := by
  rw [calculate_cashflow_eq_ok _ _ _ _ _ _ _ _ hrent hmort]
  constructor
  · intro hpp
    subst hpp
    have hc : Cashflow.cap_rate monthly_rent monthly_taxes monthly_insurance
        vacancy_rate_pct maintenance_pct 0 = 0 := by
      simp [Cashflow.cap_rate]
    have hrtp : Cashflow.rent_to_price monthly_rent 0 = 0 := by
      simp [Cashflow.rent_to_price]
    constructor
    · simp only [cashflowOkDict]
      rw [hc, pyRound_zero]
      with_unfolding_all rfl
    · simp only [cashflowOkDict]
      rw [hrtp, pyRound_zero]
      with_unfolding_all rfl
  · intro htci
    subst htci
    have hcoc : Cashflow.cash_on_cash monthly_rent mortgage_payment
        monthly_taxes monthly_insurance vacancy_rate_pct maintenance_pct 0
        = 0 := by
      simp [Cashflow.cash_on_cash]
    simp only [cashflowOkDict]
    rw [hcoc, pyRound_zero]
    with_unfolding_all rfl

/-- Witness for C8: with zero price and zero cash invested, all three
ratio fields are the sentinel zero. -/
theorem cashflow_sentinels_witness :
    (0 : ℚ) ≤ 1450 ∧ (0 : ℚ) ≤ 2312 ∧
    getField (calculate_cashflow 1450 2312 280 145 5 5 0 0) "cap_rate_pct"
      = some (.num 0) ∧
    getField (calculate_cashflow 1450 2312 280 145 5 5 0 0)
      "cash_on_cash_return_pct" = some (.num 0) :=
  ⟨by norm_num, by norm_num,
   ((cashflow_sentinels 1450 2312 280 145 5 5 0 0 (by norm_num)
      (by norm_num)).1 rfl).1,
   (cashflow_sentinels 1450 2312 280 145 5 5 0 0 (by norm_num)
      (by norm_num)).2 rfl⟩

/-- Claim C10: `calculate_cashflow` is total on its unvalidated inputs —
for any taxes, insurance, percentages, price and cash invested (negative
included), a valid rent/mortgage pair yields the full success record, and
the guarded divisions are skipped (yielding the `0.0` sentinels) for every
`property_price ≤ 0` and `total_cash_invested ≤ 0`, not merely at zero. -/
theorem cashflow_total_on_unvalidated_inputs (monthly_rent mortgage_payment
    monthly_taxes monthly_insurance vacancy_rate_pct maintenance_pct
    property_price total_cash_invested : ℚ)
    (hrent : 0 ≤ monthly_rent) (hmort : 0 ≤ mortgage_payment) :
    keysOf (calculate_cashflow monthly_rent mortgage_payment monthly_taxes
        monthly_insurance vacancy_rate_pct maintenance_pct
        property_price total_cash_invested)
      = ["monthly_rent", "expenses", "monthly_cash_flow", "annual_cash_flow",
         "annual_noi", "cap_rate_pct", "cash_on_cash_return_pct",
         "rent_to_price_ratio"] ∧
    (getField (calculate_cashflow monthly_rent mortgage_payment
          monthly_taxes monthly_insurance vacancy_rate_pct maintenance_pct
          property_price total_cash_invested) "expenses"
        = some (.obj (cashflowExpensesDict monthly_rent mortgage_payment
            monthly_taxes monthly_insurance vacancy_rate_pct maintenance_pct)) ∧
      keysOf (cashflowExpensesDict monthly_rent mortgage_payment
          monthly_taxes monthly_insurance vacancy_rate_pct maintenance_pct)
        = ["mortgage", "taxes", "insurance", "vacancy_reserve",
           "maintenance_reserve", "total_monthly"]) ∧
    (property_price ≤ 0 →
      getField (calculate_cashflow monthly_rent mortgage_payment monthly_taxes
          monthly_insurance vacancy_rate_pct maintenance_pct
          property_price total_cash_invested) "cap_rate_pct" = some (.num 0) ∧
      getField (calculate_cashflow monthly_rent mortgage_payment monthly_taxes
          monthly_insurance vacancy_rate_pct maintenance_pct
          property_price total_cash_invested) "rent_to_price_ratio"
        = some (.num 0)) ∧
    (total_cash_invested ≤ 0 →
      getField (calculate_cashflow monthly_rent mortgage_payment monthly_taxes
          monthly_insurance vacancy_rate_pct maintenance_pct
          property_price total_cash_invested) "cash_on_cash_return_pct"
        = some (.num 0)) := by
  rw [calculate_cashflow_eq_ok _ _ _ _ _ _ _ _ hrent hmort]
  refine ⟨by with_unfolding_all rfl, ⟨by with_unfolding_all rfl,
    by with_unfolding_all rfl⟩, ?_, ?_⟩
  · intro hpp
    have hc : Cashflow.cap_rate monthly_rent monthly_taxes monthly_insurance
        vacancy_rate_pct maintenance_pct property_price = 0 := by
      unfold Cashflow.cap_rate
      rw [if_neg (not_lt.mpr hpp)]
    have hrtp : Cashflow.rent_to_price monthly_rent property_price = 0 := by
      unfold Cashflow.rent_to_price
      rw [if_neg (not_lt.mpr hpp)]
    constructor
    · simp only [cashflowOkDict]
      rw [hc, pyRound_zero]
      with_unfolding_all rfl
    · simp only [cashflowOkDict]
      rw [hrtp, pyRound_zero]
      with_unfolding_all rfl
  · intro htci
    have hcoc : Cashflow.cash_on_cash monthly_rent mortgage_payment
        monthly_taxes monthly_insurance vacancy_rate_pct maintenance_pct
        total_cash_invested = 0 := by
      unfold Cashflow.cash_on_cash
      rw [if_neg (not_lt.mpr htci)]
    simp only [cashflowOkDict]
    rw [hcoc, pyRound_zero]
    with_unfolding_all rfl

/-- Witness for C10: negative taxes, insurance, percentages, price and cash
invested still produce a full success record with sentinel ratios. -/
theorem cashflow_total_on_unvalidated_inputs_witness :
    (0 : ℚ) ≤ 1000 ∧ (0 : ℚ) ≤ 0 ∧ (-7 : ℚ) ≤ 0 ∧
    keysOf (calculate_cashflow 1000 0 (-30) (-10) (-5) (-5) (-7) (-9))
      = ["monthly_rent", "expenses", "monthly_cash_flow", "annual_cash_flow",
         "annual_noi", "cap_rate_pct", "cash_on_cash_return_pct",
         "rent_to_price_ratio"] ∧
    getField (calculate_cashflow 1000 0 (-30) (-10) (-5) (-5) (-7) (-9))
      "cap_rate_pct" = some (.num 0) ∧
    getField (calculate_cashflow 1000 0 (-30) (-10) (-5) (-5) (-7) (-9))
      "cash_on_cash_return_pct" = some (.num 0) :=
  ⟨by norm_num, le_refl 0, by norm_num,
   (cashflow_total_on_unvalidated_inputs 1000 0 (-30) (-10) (-5) (-5) (-7)
      (-9) (by norm_num) (le_refl 0)).1,
   ((cashflow_total_on_unvalidated_inputs 1000 0 (-30) (-10) (-5) (-5) (-7)
      (-9) (by norm_num) (le_refl 0)).2.2.1 (by norm_num)).1,
   (cashflow_total_on_unvalidated_inputs 1000 0 (-30) (-10) (-5) (-5) (-7)
      (-9) (by norm_num) (le_refl 0)).2.2.2 (by norm_num)⟩

/-- Counterexample to C1 as stated: the input (100, 100, 5, 30) passes all
four validations (there is no error field) and has `loan_amount = 0`, yet
the returned record carries only seven fields — `interest_rate` and
`term_years` are absent. -/
theorem mortgage_zero_loan_omits_fields_cex :
    getField (calculate_mortgage 100 100 5 30) "error" = none ∧
    keysOf (calculate_mortgage 100 100 5 30)
      = ["price", "down_payment_pct", "down_payment_amount", "loan_amount",
         "monthly_payment", "total_interest", "total_cost"] ∧
    getField (calculate_mortgage 100 100 5 30) "interest_rate" = none ∧
    getField (calculate_mortgage 100 100 5 30) "term_years" = none :=
  ⟨by with_unfolding_all rfl, by with_unfolding_all rfl,
   by with_unfolding_all rfl, by with_unfolding_all rfl⟩

/-- Claim C1 (amended): every input passing all four validations yields a
success record with no error field; it has all nine fields when
`loan_amount ≠ 0`, but when `loan_amount = 0` (100% down payment) it has
exactly the seven fields without `interest_rate` and `term_years`. -/
theorem mortgage_result_fields (price down_payment_pct interest_rate : ℚ)
    (term_years : ℤ) (hp : 0 < price) (h0 : 0 ≤ down_payment_pct)
    (h100 : down_payment_pct ≤ 100) (hr : 0 < interest_rate)
    (ht : 0 < term_years) :
    (Mortgage.loan_amount price down_payment_pct ≠ 0 →
      keysOf (calculate_mortgage price down_payment_pct interest_rate term_years)
        = ["price", "down_payment_pct", "down_payment_amount", "loan_amount",
           "interest_rate", "term_years", "monthly_payment", "total_interest",
           "total_cost"]) ∧
    (Mortgage.loan_amount price down_payment_pct = 0 →
      keysOf (calculate_mortgage price down_payment_pct interest_rate term_years)
        = ["price", "down_payment_pct", "down_payment_amount", "loan_amount",
           "monthly_payment", "total_interest", "total_cost"]) ∧
    getField (calculate_mortgage price down_payment_pct interest_rate
      term_years) "error" = none := by
  by_cases hl : Mortgage.loan_amount price down_payment_pct = 0
  · rw [calculate_mortgage_eq_zero price down_payment_pct interest_rate
      term_years hp h0 h100 hr ht hl]
    exact ⟨fun h => absurd hl h, fun _ => by with_unfolding_all rfl,
      by with_unfolding_all rfl⟩
  · rw [calculate_mortgage_eq_main price down_payment_pct interest_rate
      term_years hp h0 h100 hr ht hl]
    exact ⟨fun _ => by with_unfolding_all rfl, fun h => absurd h hl,
      by with_unfolding_all rfl⟩

/-- Witness for C1 (amended): a 50%-down input yields the nine-field
record, a 100%-down input the seven-field record. -/
theorem mortgage_result_fields_witness :
    ((0 : ℚ) < 200 ∧ Mortgage.loan_amount 200 50 ≠ 0 ∧
      keysOf (calculate_mortgage 200 50 12 1)
        = ["price", "down_payment_pct", "down_payment_amount", "loan_amount",
           "interest_rate", "term_years", "monthly_payment", "total_interest",
           "total_cost"]) ∧
    (Mortgage.loan_amount 100 100 = 0 ∧
      keysOf (calculate_mortgage 100 100 5 30)
        = ["price", "down_payment_pct", "down_payment_amount", "loan_amount",
           "monthly_payment", "total_interest", "total_cost"]) :=
  ⟨⟨by norm_num, by norm_num [Mortgage.loan_amount, Mortgage.down_payment],
    (mortgage_result_fields 200 50 12 1 (by norm_num) (by norm_num)
      (by norm_num) (by norm_num) (by norm_num)).1 (by norm_num [Mortgage.loan_amount, Mortgage.down_payment])⟩,
   ⟨by norm_num [Mortgage.loan_amount, Mortgage.down_payment],
    (mortgage_result_fields 100 100 5 30 (by norm_num) (by norm_num)
      (by norm_num) (by norm_num) (by norm_num)).2.1 (by norm_num [Mortgage.loan_amount, Mortgage.down_payment])⟩⟩

/-- Claim C2: on validated inputs with a positive loan, `monthly_payment`
is the amortization formula `L * (r(1+r)^n / ((1+r)^n - 1))` with
`r = (interest_rate/100)/12` and `n = term_years*12`,
`total_interest = monthly_payment*n - L`, and
`total_cost = down_payment + monthly_payment*n`, each rounded to two
decimal places only at the output boundary, while `down_payment_pct` and
`interest_rate` pass through unrounded. -/
theorem mortgage_amortization_formula (price down_payment_pct interest_rate : ℚ)
    (term_years : ℤ) (hp : 0 < price) (h0 : 0 ≤ down_payment_pct)
    (h100 : down_payment_pct ≤ 100) (hr : 0 < interest_rate)
    (ht : 0 < term_years) (hl : 0 < Mortgage.loan_amount price down_payment_pct) :
    getField (calculate_mortgage price down_payment_pct interest_rate
        term_years) "monthly_payment"
      = some (.num (pyRound (Mortgage.loan_amount price down_payment_pct *
          ((interest_rate / 100 / 12 *
              (1 + interest_rate / 100 / 12) ^ (term_years * 12).toNat)
            / ((1 + interest_rate / 100 / 12) ^ (term_years * 12).toNat - 1))) 2)) ∧
    getField (calculate_mortgage price down_payment_pct interest_rate
        term_years) "total_interest"
      = some (.num (pyRound (Mortgage.monthly_payment price down_payment_pct
            interest_rate term_years * ((term_years * 12 : ℤ) : ℚ)
          - Mortgage.loan_amount price down_payment_pct) 2)) ∧
    getField (calculate_mortgage price down_payment_pct interest_rate
        term_years) "total_cost"
      = some (.num (pyRound (price * (down_payment_pct / 100)
          + Mortgage.monthly_payment price down_payment_pct interest_rate
              term_years * ((term_years * 12 : ℤ) : ℚ)) 2)) ∧
    getField (calculate_mortgage price down_payment_pct interest_rate
        term_years) "down_payment_pct" = some (.num down_payment_pct) ∧
    getField (calculate_mortgage price down_payment_pct interest_rate
        term_years) "interest_rate" = some (.num interest_rate) := by
  rw [calculate_mortgage_eq_main price down_payment_pct interest_rate
    term_years hp h0 h100 hr ht hl.ne']
  refine ⟨?_, ?_, ?_, ?_, ?_⟩ <;> with_unfolding_all rfl

/-- Witness for C2: price 200, 50% down, 12% rate, 1-year term gives
monthly payment 8.88, total interest 6.62, total cost 206.62. -/
theorem mortgage_amortization_formula_witness :
    (0 : ℚ) < 200 ∧ 0 < Mortgage.loan_amount 200 50 ∧
    getField (calculate_mortgage 200 50 12 1) "monthly_payment"
      = some (.num (222/25)) ∧
    getField (calculate_mortgage 200 50 12 1) "total_interest"
      = some (.num (331/50)) ∧
    getField (calculate_mortgage 200 50 12 1) "total_cost"
      = some (.num (10331/50)) := by
  have h := mortgage_amortization_formula 200 50 12 1 (by norm_num)
    (by norm_num) (by norm_num) (by norm_num) (by norm_num) (by norm_num [Mortgage.loan_amount, Mortgage.down_payment])
  refine ⟨by norm_num, by norm_num [Mortgage.loan_amount, Mortgage.down_payment], ?_, ?_, ?_⟩
  · rw [h.1]; with_unfolding_all rfl
  · rw [h.2.1]; with_unfolding_all rfl
  · rw [h.2.2.1]; with_unfolding_all rfl

/-- Claim C3: on valid inputs the cash-flow outputs follow the stated
formulas — reserves as percentages of rent, total expenses as the
five-term sum, cash flow as rent minus expenses, annual figures times 12,
NOI excluding the mortgage — with every output rounded to 2 decimals
except `rent_to_price_ratio`, rounded to 4. -/
theorem cashflow_formulas (monthly_rent mortgage_payment monthly_taxes
    monthly_insurance vacancy_rate_pct maintenance_pct
    property_price total_cash_invested : ℚ)
    (hrent : 0 ≤ monthly_rent) (hmort : 0 ≤ mortgage_payment) :
    (getField (calculate_cashflow monthly_rent mortgage_payment
          monthly_taxes monthly_insurance vacancy_rate_pct maintenance_pct
          property_price total_cash_invested) "expenses"
        = some (.obj (cashflowExpensesDict monthly_rent mortgage_payment
            monthly_taxes monthly_insurance vacancy_rate_pct maintenance_pct)) ∧
      getField (cashflowExpensesDict monthly_rent mortgage_payment
          monthly_taxes monthly_insurance vacancy_rate_pct maintenance_pct)
          "vacancy_reserve"
        = some (.num (pyRound (monthly_rent * (vacancy_rate_pct / 100)) 2)) ∧
      getField (cashflowExpensesDict monthly_rent mortgage_payment
          monthly_taxes monthly_insurance vacancy_rate_pct maintenance_pct)
          "maintenance_reserve"
        = some (.num (pyRound (monthly_rent * (maintenance_pct / 100)) 2)) ∧
      getField (cashflowExpensesDict monthly_rent mortgage_payment
          monthly_taxes monthly_insurance vacancy_rate_pct maintenance_pct)
          "total_monthly"
        = some (.num (pyRound (mortgage_payment + monthly_taxes
            + monthly_insurance + monthly_rent * (vacancy_rate_pct / 100)
            + monthly_rent * (maintenance_pct / 100)) 2))) ∧
    getField (calculate_cashflow monthly_rent mortgage_payment monthly_taxes
        monthly_insurance vacancy_rate_pct maintenance_pct
        property_price total_cash_invested) "monthly_cash_flow"
      = some (.num (pyRound (monthly_rent - (mortgage_payment + monthly_taxes
          + monthly_insurance + monthly_rent * (vacancy_rate_pct / 100)
          + monthly_rent * (maintenance_pct / 100))) 2)) ∧
    getField (calculate_cashflow monthly_rent mortgage_payment monthly_taxes
        monthly_insurance vacancy_rate_pct maintenance_pct
        property_price total_cash_invested) "annual_cash_flow"
      = some (.num (pyRound (12 * (monthly_rent - (mortgage_payment
          + monthly_taxes + monthly_insurance
          + monthly_rent * (vacancy_rate_pct / 100)
          + monthly_rent * (maintenance_pct / 100)))) 2)) ∧
    getField (calculate_cashflow monthly_rent mortgage_payment monthly_taxes
        monthly_insurance vacancy_rate_pct maintenance_pct
        property_price total_cash_invested) "annual_noi"
      = some (.num (pyRound ((monthly_rent
          - monthly_rent * (vacancy_rate_pct / 100)
          - monthly_rent * (maintenance_pct / 100)
          - monthly_taxes - monthly_insurance) * 12) 2)) ∧
    getField (calculate_cashflow monthly_rent mortgage_payment monthly_taxes
        monthly_insurance vacancy_rate_pct maintenance_pct
        property_price total_cash_invested) "monthly_rent"
      = some (.num (pyRound monthly_rent 2)) ∧
    getField (calculate_cashflow monthly_rent mortgage_payment monthly_taxes
        monthly_insurance vacancy_rate_pct maintenance_pct
        property_price total_cash_invested) "cap_rate_pct"
      = some (.num (pyRound (Cashflow.cap_rate monthly_rent monthly_taxes
          monthly_insurance vacancy_rate_pct maintenance_pct
          property_price) 2)) ∧
    getField (calculate_cashflow monthly_rent mortgage_payment monthly_taxes
        monthly_insurance vacancy_rate_pct maintenance_pct
        property_price total_cash_invested) "cash_on_cash_return_pct"
      = some (.num (pyRound (Cashflow.cash_on_cash monthly_rent
          mortgage_payment monthly_taxes monthly_insurance vacancy_rate_pct
          maintenance_pct total_cash_invested) 2)) ∧
    getField (calculate_cashflow monthly_rent mortgage_payment monthly_taxes
        monthly_insurance vacancy_rate_pct maintenance_pct
        property_price total_cash_invested) "rent_to_price_ratio"
      = some (.num (pyRound (Cashflow.rent_to_price monthly_rent
          property_price) 4)) := by
  rw [calculate_cashflow_eq_ok _ _ _ _ _ _ _ _ hrent hmort]
  have hacf : Cashflow.annual_cash_flow monthly_rent mortgage_payment
      monthly_taxes monthly_insurance vacancy_rate_pct maintenance_pct
      = 12 * (monthly_rent - (mortgage_payment + monthly_taxes
          + monthly_insurance + monthly_rent * (vacancy_rate_pct / 100)
          + monthly_rent * (maintenance_pct / 100))) := by
    unfold Cashflow.annual_cash_flow Cashflow.monthly_cash_flow
      Cashflow.total_monthly_expenses Cashflow.vacancy_reserve
      Cashflow.maintenance_reserve
    ring
  simp only [cashflowOkDict]
  rw [hacf]
  refine ⟨⟨?_, ?_, ?_, ?_⟩, ?_, ?_, ?_, ?_, ?_, ?_, ?_⟩ <;>
    with_unfolding_all rfl

/-- Witness for C3: rent 1000, mortgage 500, taxes 100, insurance 50, both
reserve percentages 5, price 100000 — cash flow 250/month, NOI 9000/year,
rent-to-price 0.01. -/
theorem cashflow_formulas_witness :
    (0 : ℚ) ≤ 1000 ∧ (0 : ℚ) ≤ 500 ∧
    getField (calculate_cashflow 1000 500 100 50 5 5 100000 10000)
      "monthly_cash_flow" = some (.num 250) ∧
    getField (calculate_cashflow 1000 500 100 50 5 5 100000 10000)
      "annual_noi" = some (.num 9000) ∧
    getField (calculate_cashflow 1000 500 100 50 5 5 100000 10000)
      "rent_to_price_ratio" = some (.num (1/100)) := by
  have h := cashflow_formulas 1000 500 100 50 5 5 100000 10000
    (by norm_num) (by norm_num)
  refine ⟨by norm_num, by norm_num, ?_, ?_, ?_⟩
  · rw [h.2.1]; with_unfolding_all rfl
  · rw [h.2.2.2.1]; with_unfolding_all rfl
  · rw [h.2.2.2.2.2.2.2]; with_unfolding_all rfl

/-- Counterexample to C7 as stated: price 1.005 (= 201/200) with 100% down
passes all validations and returns `total_cost = 1`, which is not the
price — `round(price, 2)` is returned, not `price`. -/
theorem mortgage_full_down_total_cost_cex :
    getField (calculate_mortgage (201/200) 100 5 30) "error" = none ∧
    getField (calculate_mortgage (201/200) 100 5 30) "monthly_payment"
      = some (.num 0) ∧
    getField (calculate_mortgage (201/200) 100 5 30) "total_cost"
      = some (.num 1) ∧
    (1 : ℚ) ≠ 201/200 :=
  ⟨by with_unfolding_all rfl, by with_unfolding_all rfl,
   by with_unfolding_all rfl, by norm_num⟩

/-- Claim C7 (amended): with 100% down payment (`loan_amount = 0`) the
amortization formula is skipped and the result has `monthly_payment = 0`,
`total_interest = 0`, and `total_cost = round(price, 2)` — equal to the
price whenever the price is a whole number of cents. -/
theorem mortgage_full_down_zeroes (price interest_rate : ℚ) (term_years : ℤ)
    (hp : 0 < price) (hr : 0 < interest_rate) (ht : 0 < term_years) :
    getField (calculate_mortgage price 100 interest_rate term_years)
      "monthly_payment" = some (.num 0) ∧
    getField (calculate_mortgage price 100 interest_rate term_years)
      "total_interest" = some (.num 0) ∧
    getField (calculate_mortgage price 100 interest_rate term_years)
      "total_cost" = some (.num (pyRound price 2)) ∧
    (∀ cents : ℤ, price = (cents : ℚ) / 100 → pyRound price 2 = price) := by
  have hl : Mortgage.loan_amount price 100 = 0 := by
    unfold Mortgage.loan_amount Mortgage.down_payment
    ring
  rw [calculate_mortgage_eq_zero price 100 interest_rate term_years hp
    (by norm_num) (by norm_num) hr ht hl]
  refine ⟨by with_unfolding_all rfl, by with_unfolding_all rfl,
    by with_unfolding_all rfl, ?_⟩
  intro cents hc
  subst hc
  have h1 : ((cents : ℚ) / 100) * 10 ^ 2 = (cents : ℚ) := by
    norm_num
  have h2 : roundHalfEven ((cents : ℚ)) = cents := by
    unfold roundHalfEven
    norm_num
  unfold pyRound
  rw [h1, h2]
  norm_num

/-! Lemmas about the retry loop. -/

/-- The loop body runs at most `fuel` times. -/
theorem retryAux_calls_le {α : Type} (f : ℕ → Except String α)
    (max_retries : ℕ) (base_delay : ℚ) :
    ∀ (fuel attempt : ℕ),
      (retryAux f max_retries base_delay attempt fuel).calls ≤ fuel := by
  intro fuel
  induction fuel with
  | zero => intro a; simp [retryAux]
  | succ n ih =>
    intro a
    unfold retryAux
    cases hf : f a with
    | ok v => simp
    | error e =>
      dsimp only
      by_cases hr : errRetryable e = true
      · rw [if_pos hr]
        by_cases ha : a < max_retries
        · rw [if_pos ha]
          simpa using Nat.succ_le_succ (ih (a + 1))
        · rw [if_neg ha]
          simp
      · rw [if_neg hr]
        simp

/-- Every delay the loop performs is `base_delay * 2 ^ i` for its 0-indexed
attempt `i`, and is performed only after a retryable failure of that
attempt. -/
theorem retryAux_delays_spec {α : Type} (f : ℕ → Except String α)
    (max_retries : ℕ) (base_delay : ℚ) :
    ∀ (fuel attempt i : ℕ),
      i < (retryAux f max_retries base_delay attempt fuel).delays.length →
      (retryAux f max_retries base_delay attempt fuel).delays[i]?
          = some (base_delay * 2 ^ (attempt + i)) ∧
      ∃ e, f (attempt + i) = .error e ∧ errRetryable e = true := by
  intro fuel
  induction fuel with
  | zero => intro a i h; simp [retryAux] at h
  | succ n ih =>
    intro a i h
    unfold retryAux at h ⊢
    cases hf : f a with
    | ok v => rw [hf] at h; simp at h
    | error e =>
      rw [hf] at h
      dsimp only at h ⊢
      by_cases hr : errRetryable e = true
      · rw [if_pos hr] at h ⊢
        by_cases ha : a < max_retries
        · rw [if_pos ha] at h ⊢
          cases i with
          | zero =>
            exact ⟨by simp, ⟨e, by simpa using hf, hr⟩⟩
          | succ i' =>
            simp only [List.length_cons, Nat.succ_lt_succ_iff] at h
            have hrec := ih (a + 1) i' (by simpa using h)
            have harith : a + 1 + i' = a + (i' + 1) := by omega
            rw [harith] at hrec
            exact ⟨by simpa using hrec.1, hrec.2⟩
        · rw [if_neg ha] at h; simp at h
      · rw [if_neg hr] at h; simp at h

/-- If every attempt up to `max_retries` fails with a retryable error, the
loop performs the full backoff schedule and ends in the re-raise of the
last error. -/
theorem retryAux_all_retryable {α : Type} (f : ℕ → Except String α)
    (max_retries : ℕ) (base_delay : ℚ) (e : String)
    (hlast : f max_retries = .error e)
    (hall : ∀ i, i ≤ max_retries → ∃ e2, f i = .error e2 ∧ errRetryable e2 = true) :
    ∀ (k attempt : ℕ), attempt + k = max_retries →
      retryAux f max_retries base_delay attempt (k + 1)
        = ⟨.error e, k + 1,
            (List.range' attempt k).map (fun i => base_delay * 2 ^ i)⟩ := by
  intro k
  induction k with
  | zero =>
    intro a ha
    have ha' : a = max_retries := by omega
    subst ha'
    obtain ⟨e2, hf2, hr2⟩ := hall a le_rfl
    have he : e2 = e := by rw [hlast] at hf2; injection hf2 with h; exact h.symm
    subst he
    unfold retryAux
    rw [hf2]
    dsimp only
    rw [if_pos hr2, if_neg (lt_irrefl a)]
    simp
  | succ n ih =>
    intro a ha
    have haMR : a < max_retries := by omega
    obtain ⟨e2, hf2, hr2⟩ := hall a (by omega)
    unfold retryAux
    rw [hf2]
    dsimp only
    rw [if_pos hr2, if_pos haMR, ih (a + 1) (by omega)]
    simp [List.range'_succ]

/-- If attempts before `j` fail retryably and attempt `j` fails with a
non-retryable error, the loop stops right there: the error propagates,
attempt `j` is the last call, and no delay follows it. -/
theorem retryAux_stops_nonretryable {α : Type} (f : ℕ → Except String α)
    (max_retries : ℕ) (base_delay : ℚ) (e : String) (j : ℕ)
    (hj : f j = .error e) (hnr : errRetryable e = false)
    (hpre : ∀ i, i < j → ∃ e2, f i = .error e2 ∧ errRetryable e2 = true)
    (hjm : j ≤ max_retries) :
    ∀ (k attempt fuel : ℕ), attempt + k = j →
      fuel = max_retries + 1 - attempt →
      retryAux f max_retries base_delay attempt fuel
        = ⟨.error e, k + 1,
            (List.range' attempt k).map (fun i => base_delay * 2 ^ i)⟩ := by
  intro k
  induction k with
  | zero =>
    intro a fuel ha hfuel
    have ha' : a = j := by omega
    subst ha'
    obtain ⟨m, hm⟩ : ∃ m, fuel = m + 1 := ⟨max_retries - a, by omega⟩
    subst hm
    unfold retryAux
    rw [hj]
    dsimp only
    rw [if_neg (by simp [hnr])]
    simp
  | succ n ih =>
    intro a fuel ha hfuel
    have haj : a < j := by omega
    obtain ⟨e2, hf2, hr2⟩ := hpre a haj
    obtain ⟨m, hm⟩ : ∃ m, fuel = m + 1 := ⟨max_retries - a, by omega⟩
    subst hm
    unfold retryAux
    rw [hf2]
    dsimp only
    rw [if_pos hr2, if_pos (show a < max_retries by omega),
      ih (a + 1) m (by omega) (by omega)]
    simp [List.range'_succ]

/-- Claim C4: for any wrapped operation, a retryable failure on attempt `i`
(0-indexed, `i < max_retries`) is followed by a sleep of
`base_delay * 2 ^ i` before the retry; the operation is invoked at most
`max_retries + 1` times; and if every attempt fails retryably the wrapper
re-raises the last observed failure after the full backoff schedule. -/
theorem retry_backoff_policy {α : Type} (max_retries : ℕ) (base_delay : ℚ)
    (f : ℕ → Except String α) :
    (retry_on_rate_limit max_retries base_delay f).calls ≤ max_retries + 1 ∧
    (∀ i, i < (retry_on_rate_limit max_retries base_delay f).delays.length →
      (retry_on_rate_limit max_retries base_delay f).delays[i]?
          = some (base_delay * 2 ^ i) ∧
      ∃ e, f i = .error e ∧ errRetryable e = true) ∧
    ((∀ i, i ≤ max_retries → ∃ e, f i = .error e ∧ errRetryable e = true) →
      ∃ e, f max_retries = .error e ∧
        retry_on_rate_limit max_retries base_delay f
          = ⟨.error e, max_retries + 1,
              (List.range max_retries).map (fun i => base_delay * 2 ^ i)⟩) := by
  refine ⟨retryAux_calls_le f max_retries base_delay (max_retries + 1) 0,
    ?_, ?_⟩
  · intro i h
    have := retryAux_delays_spec f max_retries base_delay (max_retries + 1) 0 i h
    simpa using this
  · intro hall
    obtain ⟨e, he, hre⟩ := hall max_retries le_rfl
    refine ⟨e, he, ?_⟩
    have h := retryAux_all_retryable f max_retries base_delay e he hall
      max_retries 0 (by omega)
    rw [retry_on_rate_limit, h, List.range_eq_range']

/-- Witness for C4: an operation that always raises a rate-limit error,
wrapped with the default budget (5 retries, base delay 2), is called 6
times, sleeps 2, 4, 8, 16, 32, and re-raises the error. -/
theorem retry_backoff_policy_witness :
    (∀ i, i ≤ 5 →
      ∃ e, (fun _ : ℕ => (Except.error "429 RESOURCE_EXHAUSTED" :
        Except String Unit)) i = .error e ∧ errRetryable e = true) ∧
    retry_on_rate_limit 5 2
        (fun _ : ℕ => (Except.error "429 RESOURCE_EXHAUSTED" : Except String Unit))
      = ⟨.error "429 RESOURCE_EXHAUSTED", 6, [2, 4, 8, 16, 32]⟩ := by
  have hall : ∀ i, i ≤ 5 →
      ∃ e, (fun _ : ℕ => (Except.error "429 RESOURCE_EXHAUSTED" :
        Except String Unit)) i = .error e ∧ errRetryable e = true :=
    fun i _ => ⟨"429 RESOURCE_EXHAUSTED", rfl, by with_unfolding_all rfl⟩
  refine ⟨hall, ?_⟩
  obtain ⟨e, he, heq⟩ := (retry_backoff_policy 5 2
    (fun _ : ℕ => (Except.error "429 RESOURCE_EXHAUSTED" :
      Except String Unit))).2.2 hall
  have he2 : e = "429 RESOURCE_EXHAUSTED" := by
    injection he with h
    exact h.symm
  subst he2
  rw [heq]
  have hlist : (List.range 5).map (fun i => (2 : ℚ) * 2 ^ i)
      = [2, 4, 8, 16, 32] := by with_unfolding_all rfl
  rw [hlist]

/-- Claim C5: the wrapper treats a failure as retryable exactly when its
stringified, lowercased message contains "resource_exhausted" or
"rate limit"; the first non-retryable failure it sees propagates to the
caller at once — that attempt is the last call and no delay follows it. -/
theorem retry_classification {α : Type} (max_retries : ℕ) (base_delay : ℚ)
    (f : ℕ → Except String α) (j : ℕ) (e : String)
    (hj : f j = .error e) (hnr : errRetryable e = false)
    (hpre : ∀ i, i < j → ∃ e2, f i = .error e2 ∧ errRetryable e2 = true)
    (hjm : j ≤ max_retries) :
    (∀ s : String, errRetryable s = true ↔
      ("resource_exhausted".data <:+: s.toLower.data ∨
        "rate limit".data <:+: s.toLower.data)) ∧
    (retry_on_rate_limit max_retries base_delay f).res = .error e ∧
    (retry_on_rate_limit max_retries base_delay f).calls = j + 1 ∧
    (retry_on_rate_limit max_retries base_delay f).delays.length = j := by
  have h := retryAux_stops_nonretryable f max_retries base_delay e j hj hnr
    hpre hjm j 0 (max_retries + 1) (by omega) (by omega)
  rw [retry_on_rate_limit, h]
  refine ⟨?_, rfl, rfl, by simp⟩
  intro s
  simp [errRetryable, strContainsSub]

/-- Witness for C5: an operation raising "file not found" propagates on the
very first call, with one invocation and no delay. -/
theorem retry_classification_witness :
    errRetryable "file not found" = false ∧
    (retry_on_rate_limit 5 2
      (fun _ : ℕ => (Except.error "file not found" : Except String Unit))).res
        = .error "file not found" ∧
    (retry_on_rate_limit 5 2
      (fun _ : ℕ => (Except.error "file not found" : Except String Unit))).calls
        = 0 + 1 ∧
    (retry_on_rate_limit 5 2
      (fun _ : ℕ => (Except.error "file not found" : Except String Unit))).delays.length
        = 0 := by
  have h := retry_classification 5 2
    (fun _ : ℕ => (Except.error "file not found" : Except String Unit))
    0 "file not found" rfl (by with_unfolding_all rfl)
    (fun i hi => absurd hi (Nat.not_lt_zero i)) (by omega)
  exact ⟨by with_unfolding_all rfl, h.2.1, h.2.2.1, h.2.2.2⟩

/-- Claim C9: the retry decoration on the two calculators is inert — the
bodies report invalid inputs as returned error dictionaries, never as
raised errors, so for every input the decorated function returns the
undecorated body's value with exactly one invocation and no delay. -/
theorem retry_decoration_inert (price down_payment_pct interest_rate : ℚ)
    (term_years : ℤ)
    (monthly_rent mortgage_payment monthly_taxes monthly_insurance
      vacancy_rate_pct maintenance_pct property_price total_cash_invested : ℚ) :
    calculate_mortgage_tool price down_payment_pct interest_rate term_years
      = ⟨.ok (calculate_mortgage price down_payment_pct interest_rate
          term_years), 1, []⟩ ∧
    calculate_cashflow_tool monthly_rent mortgage_payment monthly_taxes
        monthly_insurance vacancy_rate_pct maintenance_pct
        property_price total_cash_invested
      = ⟨.ok (calculate_cashflow monthly_rent mortgage_payment monthly_taxes
          monthly_insurance vacancy_rate_pct maintenance_pct
          property_price total_cash_invested), 1, []⟩ :=
  ⟨rfl, rfl⟩

/-- Witness for C7 (amended): an integral price of 100 with 100% down gives
payment 0, interest 0 and total cost exactly 100. -/
theorem mortgage_full_down_zeroes_witness :
    (0 : ℚ) < 100 ∧
    getField (calculate_mortgage 100 100 5 30) "monthly_payment"
      = some (.num 0) ∧
    getField (calculate_mortgage 100 100 5 30) "total_cost"
      = some (.num 100) := by
  have h := mortgage_full_down_zeroes 100 5 30 (by norm_num) (by norm_num)
    (by norm_num)
  refine ⟨by norm_num, h.1, ?_⟩
  rw [h.2.2.1]
  with_unfolding_all rfl

end DealFinder
